import Mathlib

/-!
A shallow embedding of the core of the `rivets` repository:
* `src/pdb2hpp/symbol.rs` — the `Pdb2hpp.Symbol` type and its string algorithms
  (base-name extraction, namespace splitting, template-argument extraction,
  classification and rendering, pointer/modifier decoration);
* `src/rivets-shared/src/lib.rs` — `PDBCache` address resolution,
  `get_calling_convention`, and `demangle`;
* `src/rivets-macros/src/lib.rs` — the use of `demangle` by the `detour`
  attribute (fallback to the raw mangled name).

Strings are modelled as Lean `String`/`List Char`.  Rust functions that can
panic (the `assert!` in `Pdb2hpp.Symbol::as_str`) are modelled as `Option`-returning
functions where `Option.none` is the panic.  Character classes from the
source's regexes (`\w`, `\d`, whitespace for `str::trim`) are modelled over
ASCII; the symbol names this program processes are ASCII.  The regex
wildcards `.` are modelled as matching every character (the source regexes
exclude a bare newline, which cannot occur in a debug symbol name).
-/

/-- The `Type` enum of `symbol.rs` (named `NameKind` here because `Type` is a
universe in Lean): a parsed symbol name, a raw string, or the invalid state. -/
inductive NameKind where
  | symbol (s : String)
  | string (s : String)
  | none
deriving DecidableEq, Repr

/-- The `Pdb2hpp.Symbol` struct of `symbol.rs`.  The interior-mutable
`Cell<usize>`/`RefCell<String>` fields are modelled as plain fields updated
functionally by `increment_pointer_count`/`add_modifiers`. -/
structure Pdb2hpp.Symbol where
  name : NameKind
  pointer_count : Nat
  modifiers : String
deriving DecidableEq, Repr

/-- The `NONETYPE_ERROR` constant of `symbol.rs`. -/
def NONETYPE_ERROR : String := "/* error: attempt to display invalid type */"

/-- Rust-regex `\w`, restricted to ASCII. -/
def isWordChar (c : Char) : Bool := c.isAlphanum || c = '_'

/-- `str::replace(pat, repl)`: replace every non-overlapping occurrence of
`pat`, scanning left to right.  `fuel` bounds the recursion; it is
instantiated with the length of the scanned list, which suffices because
every step consumes at least one character. -/
def replaceLitGo (pat repl : List Char) : Nat → List Char → List Char
  | 0, cs => cs
  | _ + 1, [] => []
  | fuel + 1, c :: rest =>
    if pat.isPrefixOf (c :: rest) then
      repl ++ replaceLitGo pat repl fuel ((c :: rest).drop pat.length)
    else
      c :: replaceLitGo pat repl fuel rest

/-- `str::replace` wrapper choosing the fuel. -/
def replaceLit (pat repl cs : List Char) : List Char :=
  replaceLitGo pat repl cs.length cs

/-- The literal part of the `<lambda_(\w+?)>` pattern and of its
replacement `lambda_$1`. -/
def lambdaPat : List Char := "lambda_".data

/-- `regex!(r"<lambda_(\w+?)>").replace_all(name, "lambda_$1")`:
at each `<` followed by `lambda_`, a nonempty run of word characters and a
`>`, the whole match is replaced by `lambda_` followed by the run (the lazy
`\w+?` followed by `>` matches exactly the maximal word-character run, since
`>` is not a word character).  Unmatched positions are copied verbatim. -/
def replaceLambdaGo : Nat → List Char → List Char
  | 0, cs => cs
  | _ + 1, [] => []
  | fuel + 1, c :: rest =>
    if c = '<' && lambdaPat.isPrefixOf rest then
      match rest.drop 7 |>.takeWhile isWordChar, rest.drop 7 |>.dropWhile isWordChar with
      | _ :: _, '>' :: rest3 =>
        lambdaPat ++ (rest.drop 7 |>.takeWhile isWordChar) ++ replaceLambdaGo fuel rest3
      | _, _ => c :: replaceLambdaGo fuel rest
    else
      c :: replaceLambdaGo fuel rest

/-- Literal parts of the `<unnamed-(type|enum)-(.+?)>` pattern. -/
def typePat : List Char := "unnamed-type-".data

/-- Literal parts of the `<unnamed-(type|enum)-(.+?)>` pattern. -/
def enumPat : List Char := "unnamed-enum-".data

/-- The lazy `(.+?)>` tail of the `<unnamed-(type|enum)-(.+?)>` pattern:
the capture is the shortest nonempty prefix followed by `>`, i.e. everything
up to the first `>` occurring at index at least one.  Returns the capture
and the characters after the closing `>`. -/
def firstGtContent : List Char → Option (List Char × List Char)
  | [] => Option.none
  | a :: rest =>
    match rest.dropWhile (fun c => c != '>') with
    | '>' :: rest3 => some (a :: rest.takeWhile (fun c => c != '>'), rest3)
    | _ => Option.none

/-- `regex!(r"<unnamed-(type|enum)-(.+?)>").replace_all(name, $2)`. -/
def replaceUnnamedGo : Nat → List Char → List Char
  | 0, cs => cs
  | _ + 1, [] => []
  | fuel + 1, c :: rest =>
    if c = '<' && (typePat.isPrefixOf rest || enumPat.isPrefixOf rest) then
      match firstGtContent (rest.drop 13) with
      | some (content, rest3) => content ++ replaceUnnamedGo fuel rest3
      | Option.none => c :: replaceUnnamedGo fuel rest
    else
      c :: replaceUnnamedGo fuel rest

/-- `Pdb2hpp.Symbol::replace_unnamed_types`: rewrite `<unnamed-tag>`, `<lambda_...>`
and `<unnamed-(type|enum)-...>` placeholders into identifier-like text. -/
def replace_unnamed_types (name : String) : String :=
  let n1 := replaceLit "<unnamed-tag>".data "unnamed_tag".data name.data
  let n2 := replaceLambdaGo n1.length n1
  String.mk (replaceUnnamedGo n2.length n2)

/-- `Pdb2hpp.Symbol::_new`. -/
def Pdb2hpp.Symbol._new (name : NameKind) : Pdb2hpp.Symbol :=
  { name := name, pointer_count := 0, modifiers := "" }

/-- `Pdb2hpp.Symbol::new`. -/
def Pdb2hpp.Symbol.new (name : String) : Pdb2hpp.Symbol :=
  Pdb2hpp.Symbol._new (NameKind.symbol (replace_unnamed_types name))

/-- `Pdb2hpp.Symbol::from_string`. -/
def Pdb2hpp.Symbol.from_string (name : String) : Pdb2hpp.Symbol :=
  Pdb2hpp.Symbol._new (NameKind.string name)

/-- `Pdb2hpp.Symbol::none`. -/
def Pdb2hpp.Symbol.none : Pdb2hpp.Symbol :=
  Pdb2hpp.Symbol._new NameKind.none

/-- Whether a character list ends with `"::"`. -/
def endsWithColons (cs : List Char) : Bool :=
  match cs.reverse with
  | ':' :: ':' :: _ => true
  | _ => false

/-- `Pdb2hpp.Symbol::as_str`.  For a parsed symbol the name is truncated at its
first `<`; the source then `assert!`s that the truncation does not end with
`"::"` — that panic is modelled as `Option.none`. -/
def Pdb2hpp.Symbol.as_str (s : Pdb2hpp.Symbol) : Option String :=
  match s.name with
  | NameKind.symbol str =>
    let without_templates := str.data.takeWhile (fun c => c != '<')
    if endsWithColons without_templates then Option.none
    else some (String.mk without_templates)
  | NameKind.string str => some str
  | NameKind.none => some NONETYPE_ERROR

/-- `Pdb2hpp.Symbol::increment_pointer_count` (functional update of the `Cell`). -/
def Pdb2hpp.Symbol.increment_pointer_count (s : Pdb2hpp.Symbol) : Pdb2hpp.Symbol :=
  { s with pointer_count := s.pointer_count + 1 }

/-- `Pdb2hpp.Symbol::add_modifiers` (functional update of the `RefCell`). -/
def Pdb2hpp.Symbol.add_modifiers (s : Pdb2hpp.Symbol) (m : String) : Pdb2hpp.Symbol :=
  { s with modifiers := s.modifiers ++ m }

/-- `Pdb2hpp.Symbol::fully_qualifed` (source spelling). -/
def Pdb2hpp.Symbol.fully_qualifed (s : Pdb2hpp.Symbol) : String :=
  match s.name with
  | NameKind.symbol str =>
    s.modifiers ++ str ++ String.mk (List.replicate s.pointer_count '*')
  | NameKind.string str => str
  | NameKind.none => NONETYPE_ERROR

/-- `str::trim`, with whitespace modelled over ASCII. -/
def trimChars (cs : List Char) : List Char :=
  ((cs.dropWhile Char.isWhitespace).reverse.dropWhile Char.isWhitespace).reverse

/-- The character loop of `Pdb2hpp.Symbol::namespace_vec`: `<`/`>` adjust the
depth (a signed counter, no clamping); a `:` at depth zero whose successor
is another `:` separates (the accumulated segment is pushed trimmed, the
second `:` is consumed via the `skip` flag, exactly as in the source); any
other character is accumulated; the trailing segment is pushed when the
accumulator is nonempty. -/
def nsGo : List Char → Bool → Int → List Char → List (List Char)
  | [], _, _, cur => if cur = [] then [] else [trimChars cur]
  | _ :: rest, true, d, cur => nsGo rest false d cur
  | '<' :: rest, false, d, cur => nsGo rest false (d + 1) (cur ++ ['<'])
  | '>' :: rest, false, d, cur => nsGo rest false (d - 1) (cur ++ ['>'])
  | ':' :: rest, false, d, cur =>
    if d = 0 ∧ rest.head? = some ':' then trimChars cur :: nsGo rest true 0 []
    else nsGo rest false d (cur ++ [':'])
  | c :: rest, false, d, cur => nsGo rest false d (cur ++ [c])

/-- `Pdb2hpp.Symbol::namespace_vec`.  It walks `as_str()`, so it inherits the
possible `as_str` panic (`Option.none`). -/
def Pdb2hpp.Symbol.namespace_vec (s : Pdb2hpp.Symbol) : Option (List String) :=
  s.as_str.map fun str => (nsGo str.data false 0 []).map String.mk

/-- Everything up to (excluding) the last `>` of the list — the greedy
`(.*)` group of `regex!(r"(.+?)<(.*)>")`.  Only used when a `>` is
present. -/
def takeToLastGt (cs : List Char) : List Char :=
  ((cs.reverse.dropWhile (fun c => c != '>')).tail).reverse

/-- `regex!(r"(.+?)<(.*)>").captures(name)`: the match must start at the
beginning of the name (leftmost), the lazy `(.+?)` makes group one the
shortest nonempty prefix ending right before a `<` that still has a `>`
after it, and the greedy `(.*)` makes group two extend to the last `>`.
The accumulator holds the reversed prefix scanned so far. -/
def findCaptureGo : List Char → List Char → Option (List Char × List Char)
  | _, [] => Option.none
  | pre, '<' :: rest =>
    if pre ≠ [] && rest.contains '>' then some (pre.reverse, takeToLastGt rest)
    else findCaptureGo ('<' :: pre) rest
  | pre, c :: rest => findCaptureGo (c :: pre) rest

/-- The comma loop of `Pdb2hpp.Symbol::templates_vec`: `<`/`(` increment the depth,
`>`/`)` decrement it clamped at zero (`Nat` truncated subtraction), a comma
at depth zero cuts (the accumulated segment pushed untrimmed, empty
segments included), and the trailing segment is pushed when nonempty. -/
def splitTemplatesGo : List Char → Nat → List Char → List (List Char)
  | [], _, cur => if cur = [] then [] else [cur]
  | '<' :: rest, d, cur => splitTemplatesGo rest (d + 1) (cur ++ ['<'])
  | '(' :: rest, d, cur => splitTemplatesGo rest (d + 1) (cur ++ ['('])
  | '>' :: rest, d, cur => splitTemplatesGo rest (d - 1) (cur ++ ['>'])
  | ')' :: rest, d, cur => splitTemplatesGo rest (d - 1) (cur ++ [')'])
  | ',' :: rest, d, cur =>
    if d = 0 then cur :: splitTemplatesGo rest 0 []
    else splitTemplatesGo rest d (cur ++ [','])
  | c :: rest, d, cur => splitTemplatesGo rest d (cur ++ [c])

/-- `Pdb2hpp.Symbol::templates_vec`: match the stored name against
`(.+?)<(.*)>`; if group one ends with `::` (placeholder case) return no
arguments; otherwise split group two at top-level commas. -/
def Pdb2hpp.Symbol.templates_vec (s : Pdb2hpp.Symbol) : List String :=
  match s.name with
  | NameKind.symbol type_name =>
    match findCaptureGo [] type_name.data with
    | Option.none => []
    | some (g1, g2) =>
      if endsWithColons g1 then []
      else (splitTemplatesGo g2 0 []).map String.mk
  | _ => []

/-- The inner `number_to_template_type_name` of `Pdb2hpp.Symbol::templates_by_type`:
base-7 digits over the letters `T`..`Z`, most significant digit first.
The source recurses on `i / 7`; here `fuel` (instantiated with `i` itself,
which bounds the recursion depth) makes the recursion structural. -/
def ntGo : Nat → Nat → String
  | _, 0 => "T"
  | _, 1 => "U"
  | _, 2 => "V"
  | _, 3 => "W"
  | _, 4 => "X"
  | _, 5 => "Y"
  | _, 6 => "Z"
  | 0, _ + 7 => ""
  | fuel + 1, i + 7 => ntGo fuel ((i + 7) / 7) ++ ntGo fuel ((i + 7) % 7)

/-- `number_to_template_type_name` with the fuel chosen. -/
def number_to_template_type_name (i : Nat) : String := ntGo i i

/-- Rust-regex `^\d+\.\d+$` (ASCII digits): one or more digits, a dot, one
or more digits. -/
def isDoubleLit (cs : List Char) : Bool :=
  !(cs.takeWhile Char.isDigit).isEmpty &&
    (match cs.dropWhile Char.isDigit with
     | '.' :: c => !c.isEmpty && c.all Char.isDigit
     | _ => false)

/-- Rust-regex `^\d+$` (ASCII digits). -/
def isIntLit (cs : List Char) : Bool := !cs.isEmpty && cs.all Char.isDigit

/-- `Pdb2hpp.Symbol::templates_by_type`: classify each split template argument and
pair it with its synthesized identifier. -/
def Pdb2hpp.Symbol.templates_by_type (s : Pdb2hpp.Symbol) : List (String × String × String) :=
  s.templates_vec.enum.map fun p =>
    let template_keyword :=
      if isDoubleLit p.2.data then "double"
      else if isIntLit p.2.data then "long long"
      else "typename"
    (template_keyword, number_to_template_type_name p.1, p.2)

/-- `Pdb2hpp.Symbol::templates`: render the `template <...> ` header. -/
def Pdb2hpp.Symbol.templates (templates_by_type : List (String × String × String)) : String :=
  if templates_by_type.isEmpty then ""
  else
    "template <" ++
      String.intercalate ", " (templates_by_type.map fun t => t.1 ++ " " ++ t.2.1) ++
      "> "

/-- The `PDBCache` struct of `rivets-shared/src/lib.rs`.  The
`HashMap<String, u32>` of symbol addresses is modelled as an association
list with unique keys; the `u32` offsets and the `u64` base address are
modelled as `Nat`. -/
structure PDBCache where
  symbol_addresses : List (String × Nat)
  base_address : Nat

/-- `PDBCache::get_function_address`: look the name up in the built map and
add the module base address (`u64` wrapping addition, hence the reduction
modulo `2 ^ 64`); absence yields `Option.none`. -/
def PDBCache.get_function_address (c : PDBCache) (function_name : String) : Option Nat :=
  (c.symbol_addresses.lookup function_name).map fun x => (c.base_address + x) % 2 ^ 64

/-- A concrete database: base address `0x140000000`, symbol `MyFunc` at
relative offset `0x1234`. -/
def examplePdbCache : PDBCache :=
  { symbol_addresses := [("MyFunc", 0x1234)], base_address := 0x140000000 }

/-- `get_calling_convention` of `rivets-shared/src/lib.rs`.  The returned
`syn::Abi` value `extern "X"` is modelled by its ABI name string `X`. -/
def get_calling_convention (abi : String) : Option String :=
  match abi with
  | "__cdecl" => some "C"
  | "__stdcall" => some "stdcall"
  | "__fastcall" => some "fastcall"
  | "__thiscall" => some "thiscall"
  | "__vectorcall" => some "vectorcall"
  | _ => Option.none

/-- `demangle` of `rivets-shared/src/lib.rs`.  The two demangling
strategies (the MSVC-style `undname` crate tried first and the
Itanium-style `cpp_demangle` crate used as fallback) are external library
calls, abstracted here as function parameters; the source's
`map_or_else` on the MSVC result is the match below. -/
def demangle (msvcDemangle itaniumDemangle : String → Option String)
    (mangled : String) : Option String :=
  match msvcDemangle mangled with
  | some x => some x
  | Option.none => itaniumDemangle mangled

/-- The `unmangled_name` computation of the `detour` attribute in
`rivets-macros/src/lib.rs`: `demangle(..).unwrap_or_else(|| mangled)`. -/
def unmangled_name (msvcDemangle itaniumDemangle : String → Option String)
    (mangled : String) : String :=
  (demangle msvcDemangle itaniumDemangle mangled).getD mangled

/-- A demangling strategy that rejects every input, for exercising the
fallback path. -/
def constNoneDemangler : String → Option String := fun _ => Option.none

/-- The element at index `i` of `templates_by_type` is the classified `i`-th
split template argument paired with its synthesized identifier. -/
theorem templates_by_type_getElem (s : Pdb2hpp.Symbol) (i : Nat) :
    s.templates_by_type[i]? = s.templates_vec[i]?.map fun t =>
      (if isDoubleLit t.data then "double"
       else if isIntLit t.data then "long long"
       else "typename",
       number_to_template_type_name i, t) := by
  simp only [Pdb2hpp.Symbol.templates_by_type, List.getElem?_map, List.getElem?_enum]
  cases s.templates_vec[i]? <;> rfl

/-- Claim C1, counterexample: in the parsed declaration
`F<a,b,c,d,e,f,g,h>` the template argument at 0-based position 7 receives
the synthesized identifier `UT` (7 is the base-7 numeral `10`), not `TT`
as the claim states. -/
theorem c1_counterexample :
    ((Pdb2hpp.Symbol.new "F<a,b,c,d,e,f,g,h>").templates_by_type[7]?).map
        (fun t => t.2.1) = some "UT" ∧
    ("UT" : String) ≠ "TT" := by decide

/-- Claim C1, amended: the template argument at 0-based position `i`
receives the identifier obtained by treating `i` as a base-7 numeral over
the ordered alphabet T,U,V,W,X,Y,Z; positions 0 through 6 map directly to
T..Z, position 7 maps to `UT`, position 13 to `UZ` and position 14 to
`VT`. -/
theorem c1_amended :
    (∀ (s : Pdb2hpp.Symbol) (i : Nat) (t : String × String × String),
        s.templates_by_type[i]? = some t →
        t.2.1 = number_to_template_type_name i) ∧
    (number_to_template_type_name 0 = "T" ∧
     number_to_template_type_name 1 = "U" ∧
     number_to_template_type_name 2 = "V" ∧
     number_to_template_type_name 3 = "W" ∧
     number_to_template_type_name 4 = "X" ∧
     number_to_template_type_name 5 = "Y" ∧
     number_to_template_type_name 6 = "Z") ∧
    number_to_template_type_name 7 = "UT" ∧
    number_to_template_type_name 13 = "UZ" ∧
    number_to_template_type_name 14 = "VT" := by
  refine ⟨fun s i t h => ?_, by decide, by decide, by decide, by decide⟩
  rw [templates_by_type_getElem] at h
  obtain ⟨arg, hv, ht⟩ := Option.map_eq_some'.mp h
  rw [← ht]

/-- Claim C1, witness: the amended positional rule applied to position 7 of
a concrete declaration with eight template arguments. -/
theorem c1_amended_witness :
    (("typename", "UT", "h") : String × String × String).2.1 =
      number_to_template_type_name 7 :=
  c1_amended.1 (Pdb2hpp.Symbol.new "F<a,b,c,d,e,f,g,h>") 7 ("typename", "UT", "h")
    (by decide)

/-- Claim C2: the namespace split treats `::` at bracket depth 0 as a
separator and `::` inside a bracketed region as literal text; the split of
the declaration `ns::Outer<T1,T2>::Inner` (a raw-string symbol, whose base
name is the full text) yields exactly `["ns", "Outer<T1,T2>", "Inner"]`,
and a `::` inside `<...>` does not separate. -/
theorem c2_namespace_split :
    (Pdb2hpp.Symbol.from_string "ns::Outer<T1,T2>::Inner").namespace_vec =
      some ["ns", "Outer<T1,T2>", "Inner"] ∧
    (Pdb2hpp.Symbol.from_string "A<X::Y>::B").namespace_vec =
      some ["A<X::Y>", "B"] := by decide

/-- Claim C3, counterexample: base-name extraction is not total — on the
parsed symbol `ns::<A>` the truncation at the first `<` ends with `::`,
the source `assert!` fires (modelled as `Option.none`), and the namespace
split built on it fails the same way. -/
theorem c3_counterexample :
    (Pdb2hpp.Symbol.new "ns::<A>").as_str = Option.none ∧
    (Pdb2hpp.Symbol.new "ns::<A>").namespace_vec = Option.none := by decide

/-- Claim C3, amended: every SignatureAlgebra operation is total except
base-name extraction and the namespace split built on it, which fail
(panic) exactly on a parsed symbol whose stored name truncated at the
first `<` ends with `::`; raw-string and invalid symbols never fail. -/
theorem c3_amended :
    ∀ s : Pdb2hpp.Symbol,
      (s.as_str = Option.none ↔
        ∃ nm, s.name = NameKind.symbol nm ∧
          endsWithColons (nm.data.takeWhile (fun c => c != '<')) = true) ∧
      (s.namespace_vec = Option.none ↔ s.as_str = Option.none) := by
  rintro ⟨nm, pc, mods⟩
  constructor
  · cases nm with
    | symbol str =>
      simp only [Pdb2hpp.Symbol.as_str]
      by_cases h : endsWithColons (str.data.takeWhile (fun c => c != '<')) = true
      · simp [h]
      · simp [h]
    | string str => simp [Pdb2hpp.Symbol.as_str]
    | none => simp [Pdb2hpp.Symbol.as_str]
  · simp [Pdb2hpp.Symbol.namespace_vec, Option.map_eq_none]

/-- Claim C4, counterexample: `fully_qualifed` concatenates the full stored
name, not the template-stripped base name — for the fresh parsed symbol
`std::vector<int>` (no modifiers, zero pointers) the base-name accessor
yields `std::vector` but the rendering is `std::vector<int>`. -/
theorem c4_counterexample :
    (Pdb2hpp.Symbol.new "std::vector<int>").as_str = some "std::vector" ∧
    (Pdb2hpp.Symbol.new "std::vector<int>").modifiers = "" ∧
    (Pdb2hpp.Symbol.new "std::vector<int>").pointer_count = 0 ∧
    (Pdb2hpp.Symbol.new "std::vector<int>").fully_qualifed = "std::vector<int>" ∧
    ("std::vector<int>" : String) ≠ "std::vector" := by decide

/-- Claim C4, amended: for every parsed symbol, `fully_qualifed` is the
concatenation of the accumulated modifier text, the full stored name
(template text included, not template-stripped), and one `*` per pointer
increment; a fresh symbol named `Foo` renders as its base name `Foo`, and
after one `const ` modifier and two pointer increments renders
`const Foo**`. -/
theorem c4_amended :
    (∀ (nm mods : String) (pc : Nat),
        Pdb2hpp.Symbol.fully_qualifed ⟨NameKind.symbol nm, pc, mods⟩ =
          mods ++ nm ++ String.mk (List.replicate pc '*')) ∧
    (Pdb2hpp.Symbol.new "Foo").fully_qualifed = "Foo" ∧
    (Pdb2hpp.Symbol.new "Foo").as_str = some "Foo" ∧
    (((Pdb2hpp.Symbol.new "Foo").add_modifiers
        "const ").increment_pointer_count.increment_pointer_count).fully_qualifed =
      "const Foo**" :=
  ⟨fun _ _ _ => rfl, by decide, by decide, by decide⟩

/-- Claim C5: template-argument splitting cuts only at commas at
bracket/paren depth zero — `Foo<A<B,C>,D>` splits into exactly
`["A<B,C>", "D"]` (the nested comma is not a separator), and on malformed
input the depth is clamped at zero, so in `Foo<A>B,C>` the comma after the
stray `>` still cuts. -/
theorem c5_template_split :
    (Pdb2hpp.Symbol.new "Foo<A<B,C>,D>").templates_vec = ["A<B,C>", "D"] ∧
    (Pdb2hpp.Symbol.new "Foo<A>B,C>").templates_vec = ["A>B", "C"] := by decide

/-- Claim C6: calling-convention resolution maps each of the five
recognized tokens to its ABI tag and every other input to `Option.none`. -/
theorem c6_calling_convention :
    (get_calling_convention "__cdecl" = some "C" ∧
     get_calling_convention "__stdcall" = some "stdcall" ∧
     get_calling_convention "__fastcall" = some "fastcall" ∧
     get_calling_convention "__thiscall" = some "thiscall" ∧
     get_calling_convention "__vectorcall" = some "vectorcall") ∧
    ∀ abi : String,
      abi ∉ (["__cdecl", "__stdcall", "__fastcall", "__thiscall",
              "__vectorcall"] : List String) →
      get_calling_convention abi = Option.none := by
  refine ⟨by decide, fun abi h => ?_⟩
  simp only [List.mem_cons, List.not_mem_nil, or_false, not_or] at h
  obtain ⟨h1, h2, h3, h4, h5⟩ := h
  unfold get_calling_convention
  split <;> simp_all

/-- Claim C6, witness: an unrecognized token resolves to `Option.none`. -/
theorem c6_witness : get_calling_convention "__pascal" = Option.none :=
  c6_calling_convention.2 "__pascal" (by decide)

/-- Claim C7: address resolution returns `base + offset` (u64 wrapping)
when the name is in the built map and `Option.none` when absent; with base
`0x140000000` and `MyFunc` at offset `0x1234`, resolving `MyFunc` gives
`0x140001234` and resolving `Missing` gives `Option.none`. -/
theorem c7_resolve :
    (∀ (c : PDBCache) (name : String) (off : Nat),
        c.symbol_addresses.lookup name = some off →
        c.get_function_address name = some ((c.base_address + off) % 2 ^ 64)) ∧
    (∀ (c : PDBCache) (name : String),
        c.symbol_addresses.lookup name = Option.none →
        c.get_function_address name = Option.none) ∧
    examplePdbCache.get_function_address "MyFunc" = some 0x140001234 ∧
    examplePdbCache.get_function_address "Missing" = Option.none := by
  refine ⟨fun c n o h => ?_, fun c n h => ?_, by decide, by decide⟩
  · simp [PDBCache.get_function_address, h]
  · simp [PDBCache.get_function_address, h]

/-- Claim C7, witness: the present-name rule applied to the concrete
database. -/
theorem c7_witness :
    examplePdbCache.get_function_address "MyFunc" =
      some ((0x140000000 + 0x1234) % 2 ^ 64) :=
  c7_resolve.1 examplePdbCache "MyFunc" 0x1234 (by decide)

/-- Claim C8: `demangle` returns the MSVC strategy's result when that
strategy succeeds, delegates to the Itanium strategy when it fails,
returns `Option.none` exactly when both fail, and in that case the
`detour` macro's `unmangled_name` falls back to the raw mangled text. -/
theorem c8_demangle_fallback :
    ∀ (msvc itanium : String → Option String) (m : String),
      (∀ d, msvc m = some d → demangle msvc itanium m = some d) ∧
      (msvc m = Option.none → demangle msvc itanium m = itanium m) ∧
      (demangle msvc itanium m = Option.none ↔
        msvc m = Option.none ∧ itanium m = Option.none) ∧
      (demangle msvc itanium m = Option.none →
        unmangled_name msvc itanium m = m) := by
  intro msvc itanium m
  cases h : msvc m with
  | none =>
    refine ⟨fun d hd => by simp_all, fun _ => by simp [demangle, h], ?_, fun hn => ?_⟩
    · simp [demangle, h]
    · simp [unmangled_name, hn]
  | some x =>
    refine ⟨fun d hd => ?_, fun hn => by simp_all, ?_, fun hn => ?_⟩
    · simp [demangle, h]; simp_all
    · simp [demangle, h]
    · simp [unmangled_name, hn]

/-- Claim C8, witness: when both strategies reject the input (here the
always-failing strategy twice), processing continues with the raw mangled
text. -/
theorem c8_witness :
    unmangled_name constNoneDemangler constNoneDemangler "?x@@mangled" =
      "?x@@mangled" :=
  (c8_demangle_fallback constNoneDemangler constNoneDemangler "?x@@mangled").2.2.2 rfl

/-- Claim C9: a raw-string symbol renders as the stored string unchanged —
the base-name accessor and `fully_qualifed` both return it for every
pointer count and modifier text, `from_string` performs no placeholder
rewriting, and pointer increments and modifier appends never change the
stored name. -/
theorem c9_from_string :
    (∀ (s mods : String) (pc : Nat),
        (Pdb2hpp.Symbol.mk (NameKind.string s) pc mods).as_str = some s ∧
        (Pdb2hpp.Symbol.mk (NameKind.string s) pc mods).fully_qualifed = s) ∧
    (∀ s : String,
        Pdb2hpp.Symbol.from_string s = Pdb2hpp.Symbol.mk (NameKind.string s) 0 "") ∧
    (∀ sym : Pdb2hpp.Symbol, sym.increment_pointer_count.name = sym.name) ∧
    (∀ (sym : Pdb2hpp.Symbol) (m : String), (sym.add_modifiers m).name = sym.name) :=
  ⟨fun _ _ _ => ⟨rfl, rfl⟩, fun _ => rfl, fun _ => rfl, fun _ _ => rfl⟩

/-- Claim C10: rendering the invalid (`None`) symbol never fails — the
base-name accessor and `fully_qualifed` return the literal placeholder
text, the namespace split returns a result (the placeholder as one
segment), and the template operations return empty lists. -/
theorem c10_none_rendering :
    Pdb2hpp.Symbol.none.as_str = some NONETYPE_ERROR ∧
    Pdb2hpp.Symbol.none.fully_qualifed = NONETYPE_ERROR ∧
    Pdb2hpp.Symbol.none.namespace_vec = some [NONETYPE_ERROR] ∧
    Pdb2hpp.Symbol.none.templates_vec = [] ∧
    Pdb2hpp.Symbol.none.templates_by_type = [] := by decide
